import Mathlib

/-!
# Verification of solana-tx-kit core components

Shallow embedding of the retry engine, error classifier, circuit breaker,
health tracker, connection pool, blockhash manager, priority-fee estimator
and the send pipeline's transaction preparation, translated from the
TypeScript sources, together with theorems settling the specification
claims.

Conventions:
* timestamps (`Date.now()`) are passed explicitly as `Nat` parameters;
* JS mutation is modelled by explicit state passing; aliasing between the
  user's original transaction and the pipeline's working transaction is
  modelled by an explicit reference constructor;
* latency values are rationals (`ℚ`); the EMA arithmetic of the source is
  IEEE double, but the smoothing constants 0.3/0.7 and the branch on
  `latencyEma === 0` are exactly mirrored over `ℚ`;
* fallible code returns `Except`.
-/

namespace SolTxKit

/-! ## String utilities

`String.prototype.includes` from JS, via lists of characters. -/

/-- `hasPrefixL hay pat` is true when `pat` is a prefix of `hay`. -/
def hasPrefixL : List Char → List Char → Bool
  | _, [] => true
  | [], _ :: _ => false
  | a :: as, b :: bs => a == b && hasPrefixL as bs

/-- `hasSubL hay pat` is true when `pat` occurs contiguously in `hay`. -/
def hasSubL : List Char → List Char → Bool
  | [], pat => pat.isEmpty
  | a :: rest, pat => hasPrefixL (a :: rest) pat || hasSubL rest pat

/-- JS `msg.includes(pat)`. -/
def strIncludes (msg pat : String) : Bool :=
  hasSubL msg.toList pat.toList

/-! ## Error model (`src/errors.ts`)

A JS `Error` as seen by the classifier: its rendered `message`, the
optional `code` property of `NodeJS.ErrnoException`, and the `SolTxError`
code when the error is a typed `SolTxError`. -/

/-- Error codes of `SolTxErrorCode` in `src/errors.ts`. -/
inductive SolTxErrorCode where
  | RETRIES_EXHAUSTED
  | NON_RETRYABLE
  | BLOCKHASH_EXPIRED
  | BLOCKHASH_FETCH_FAILED
  | SIMULATION_FAILED
  | INSUFFICIENT_FUNDS
  | CONFIRMATION_TIMEOUT
  | TRANSACTION_FAILED
  | ALL_ENDPOINTS_UNHEALTHY
  | RATE_LIMITED
  | BUNDLE_FAILED
  | BUNDLE_DROPPED
  | TIP_TOO_LOW
  | FEE_ESTIMATION_FAILED
deriving DecidableEq, Repr

/-- A JS error value as observed by `classifyError` / `isBlockhashExpired`:
`message`, the errno-style `code` property, and — when the error is an
`instanceof SolTxError` — its structured `SolTxErrorCode`. -/
structure JsError where
  message : String
  errnoCode : Option String := none
  solTxCode : Option SolTxErrorCode := none
deriving DecidableEq, Repr

/-! ## Error classifier (`src/retry/error-classifier.ts`) -/

def RETRYABLE_MESSAGES : List String :=
  ["blockhash not found",
   "block height exceeded",
   "TransactionExpiredBlockheightExceeded",
   "Node is behind",
   "node is unhealthy",
   "Service unavailable",
   "Too many requests"]

def NEEDS_RESIGN_MESSAGES : List String :=
  ["blockhash not found",
   "block height exceeded",
   "TransactionExpiredBlockheightExceeded"]

def NETWORK_ERROR_CODES : List String :=
  ["ECONNRESET", "ETIMEDOUT", "ENOTFOUND", "ECONNREFUSED", "EAI_AGAIN", "EPIPE"]

def NON_RETRYABLE_MESSAGES : List String :=
  ["insufficient funds",
   "Insufficient funds",
   "invalid account data",
   "Account not found",
   "Signature verification failed",
   "Transaction simulation failed: Error processing Instruction",
   "Program failed to complete",
   "already been processed"]

structure ErrorClassification where
  retryable : Bool
  needsResign : Bool
  errorType : String
deriving DecidableEq, Repr

/-- `isBlockhashExpired` from `error-classifier.ts`: a typed
`SolTxError` coded `BLOCKHASH_EXPIRED`, or any message containing one of
the resign patterns. -/
def isBlockhashExpired (e : JsError) : Bool :=
  e.solTxCode == some .BLOCKHASH_EXPIRED ||
    NEEDS_RESIGN_MESSAGES.any (fun p => strIncludes e.message p)

/-- `classifyError` from `error-classifier.ts`, rule for rule in source
order: non-retryable substrings, typed blockhash-expired, errno network
codes, HTTP 429/503 patterns, other retryable substrings, then the
`UNKNOWN` default. -/
def classifyError (e : JsError) : ErrorClassification :=
  match NON_RETRYABLE_MESSAGES.find? (fun p => strIncludes e.message p) with
  | some p => ⟨false, false, p⟩
  | none =>
    if isBlockhashExpired e then
      ⟨true, true, "BLOCKHASH_EXPIRED"⟩
    else if (match e.errnoCode with
             | some c => NETWORK_ERROR_CODES.contains c
             | none => false) then
      ⟨true, false, e.errnoCode.getD ""⟩
    else if strIncludes e.message "429" || strIncludes e.message "Too many requests" then
      ⟨true, false, "RATE_LIMITED"⟩
    else if strIncludes e.message "503" || strIncludes e.message "Service unavailable" then
      ⟨true, false, "SERVICE_UNAVAILABLE"⟩
    else
      match RETRYABLE_MESSAGES.find? (fun p => strIncludes e.message p) with
      | some p => ⟨true, NEEDS_RESIGN_MESSAGES.any (fun q => strIncludes e.message q), p⟩
      | none => ⟨false, false, "UNKNOWN"⟩

/-! ## Retry engine (`src/retry/retry.ts`)

`withRetry` loops `attempt = 0 .. maxRetries`, invoking `fn(ctx)`.  The
attempt outcomes are modelled by an oracle `fn : Nat → Except JsError α`
(the context fields `totalAttempts / elapsed / lastError` do not influence
control flow).  Delay computation and sleeping do not affect the result
value or the invocation count and are omitted from the result; the errors
raised are modelled by `RetryError`.  The recursion is on
`remaining = maxRetries − attempt`. -/

/-- The two errors `withRetry` can raise, each wrapping its cause. -/
inductive RetryError where
  | nonRetryable (cause : JsError)
  | retriesExhausted (cause : JsError)
deriving DecidableEq, Repr

/-- One step of `withRetry`'s loop body, returning the outcome together
with the number of `fn` invocations consumed.  `attempt` is the current
zero-based attempt index and `remaining = maxRetries − attempt` the number
of attempts still allowed after this one.  Mirrors the `try/catch` body of
`withRetry`: a thrown error on the last planned attempt breaks out of the
loop into the `RETRIES_EXHAUSTED` throw; before the last attempt the
custom predicate (when given) or `classifyError` decides between retrying
and throwing `NON_RETRYABLE`. -/
def retryDecision (pred : Option (JsError → Nat → Bool)) (e : JsError) (attempt : Nat) : Bool :=
  match pred with
  | some p => p e attempt
  | none => (classifyError e).retryable

def withRetryGo {α : Type} (fn : Nat → Except JsError α)
    (pred : Option (JsError → Nat → Bool)) :
    Nat → Nat → Except RetryError α × Nat
  | attempt, remaining =>
    match fn attempt with
    | .ok v => (.ok v, 1)
    | .error e =>
      match remaining with
      | 0 => (.error (.retriesExhausted e), 1)
      | r + 1 =>
        if retryDecision pred e attempt then
          ((withRetryGo fn pred (attempt + 1) r).1, (withRetryGo fn pred (attempt + 1) r).2 + 1)
        else
          (.error (.nonRetryable e), 1)

/-- `withRetry(fn, config)` with `config.maxRetries` resolved and an
optional `retryPredicate`; result value together with the number of
invocations of `fn`. -/
def withRetry {α : Type} (fn : Nat → Except JsError α) (maxRetries : Nat)
    (pred : Option (JsError → Nat → Bool) := none) : Except RetryError α × Nat :=
  withRetryGo fn pred 0 maxRetries

/-! ## Circuit breaker (`src/rpc/circuit-breaker.ts`)

`Date.now()` is passed explicitly as `now : Nat`; timestamps recorded by
the breaker are always earlier readings of the same clock, so the JS
subtractions `now - t` are the truncated `Nat` subtraction. -/

inductive CircuitState where
  | CLOSED
  | OPEN
  | HALF_OPEN
deriving DecidableEq, Repr

structure CircuitBreakerConfig where
  failureThreshold : Nat
  resetTimeoutMs : Nat
  windowMs : Nat
deriving DecidableEq, Repr

def DEFAULT_CIRCUIT_BREAKER_CONFIG : CircuitBreakerConfig :=
  { failureThreshold := 5, resetTimeoutMs := 30000, windowMs := 60000 }

/-- The mutable fields of class `CircuitBreaker`. -/
structure CircuitBreaker where
  state : CircuitState
  failures : List Nat
  lastOpenedAt : Nat
deriving DecidableEq, Repr

/-- A freshly constructed breaker: `CLOSED`, no failures, `lastOpenedAt = 0`. -/
def CircuitBreaker.init : CircuitBreaker :=
  { state := .CLOSED, failures := [], lastOpenedAt := 0 }

/-- The `currentState` getter: observational `OPEN → HALF_OPEN` promotion
when `resetTimeoutMs` has elapsed since `lastOpenedAt`, then the state is
returned.  The getter mutates the breaker, so the updated breaker is
returned alongside. -/
def currentState (cfg : CircuitBreakerConfig) (b : CircuitBreaker) (now : Nat) :
    CircuitState × CircuitBreaker :=
  if b.state = .OPEN ∧ cfg.resetTimeoutMs ≤ now - b.lastOpenedAt then
    (.HALF_OPEN, { b with state := .HALF_OPEN })
  else
    (b.state, b)

/-- `recordSuccess()`: only a raw `HALF_OPEN` state transitions to
`CLOSED` (clearing the failure window); in every other state the call is
a no-op.  Note it reads `this.state` directly, not the `currentState`
getter. -/
def recordSuccess (b : CircuitBreaker) : CircuitBreaker :=
  if b.state = .HALF_OPEN then
    { b with state := .CLOSED, failures := [] }
  else
    b

/-- `recordFailure()`: from raw `HALF_OPEN`, reopen and restamp
`lastOpenedAt`; otherwise prune failures outside the sliding window
(`now - t < windowMs` kept), append `now`, and open once the window holds
at least `failureThreshold` failures. -/
def recordFailure (cfg : CircuitBreakerConfig) (b : CircuitBreaker) (now : Nat) :
    CircuitBreaker :=
  if b.state = .HALF_OPEN then
    { b with state := .OPEN, lastOpenedAt := now }
  else
    let fs := (b.failures.filter (fun t => now - t < cfg.windowMs)) ++ [now]
    if cfg.failureThreshold ≤ fs.length then
      { state := .OPEN, failures := fs, lastOpenedAt := now }
    else
      { b with failures := fs }

/-- `canExecute()`: reads `currentState` (performing the observational
promotion) and allows execution from `CLOSED` or `HALF_OPEN`. -/
def canExecute (cfg : CircuitBreakerConfig) (b : CircuitBreaker) (now : Nat) :
    Bool × CircuitBreaker :=
  let sb := currentState cfg b now
  (sb.1 == .CLOSED || sb.1 == .HALF_OPEN, sb.2)

/-- `reset()`: back to `CLOSED` with an empty window. -/
def CircuitBreaker.reset (_ : CircuitBreaker) : CircuitBreaker :=
  { state := .CLOSED, failures := [], lastOpenedAt := 0 }

/-! ## Health tracker (`src/rpc/health-tracker.ts`)

Latencies and rates are rationals; the source computes in IEEE doubles
but the smoothing constant `0.3`, the complementary `0.7` and the branch
on `latencyEma === 0` are mirrored exactly. -/

def EMA_ALPHA : ℚ := 3/10

structure HealthMetrics where
  latencyEma : ℚ
  errorCount : Nat
  successCount : Nat
  errorRate : ℚ
  lastSlot : Nat
  slotLag : Int
  lastSuccessAt : Nat
  circuitState : CircuitState
deriving DecidableEq, Repr

/-- The initial `metrics` field of a fresh `HealthTracker`. -/
def HealthMetrics.init : HealthMetrics :=
  { latencyEma := 0, errorCount := 0, successCount := 0, errorRate := 0, lastSlot := 0,
    slotLag := 0, lastSuccessAt := 0, circuitState := .CLOSED }

/-- `updateErrorRate()`: `errorCount / (successCount + errorCount)`, or 0
when no calls have been recorded. -/
def updateErrorRate (m : HealthMetrics) : HealthMetrics :=
  let total := m.successCount + m.errorCount
  { m with errorRate := if 0 < total then (m.errorCount : ℚ) / (total : ℚ) else 0 }

/-- `HealthTracker.recordSuccess(latencyMs, slot?)`: bump success count
and last-success timestamp, fold the latency into the EMA (first sample —
detected by `latencyEma === 0` — sets the value), optionally update the
last slot, notify the breaker, refresh the error rate and snapshot the
breaker state. -/
def recordSuccessHT (cfg : CircuitBreakerConfig) (m : HealthMetrics) (b : CircuitBreaker)
    (latencyMs : ℚ) (slot : Option Nat) (now : Nat) : HealthMetrics × CircuitBreaker :=
  let m1 := { m with successCount := m.successCount + 1, lastSuccessAt := now }
  let m2 :=
    if m1.latencyEma = 0 then
      { m1 with latencyEma := latencyMs }
    else
      { m1 with latencyEma := EMA_ALPHA * latencyMs + (1 - EMA_ALPHA) * m1.latencyEma }
  let m3 :=
    match slot with
    | some s => { m2 with lastSlot := s }
    | none => m2
  let b1 := recordSuccess b
  let sb := currentState cfg b1 now
  ({ updateErrorRate m3 with circuitState := sb.1 }, sb.2)

/-- `HealthTracker.recordFailure(error)`: bump error count, notify the
breaker, refresh the error rate and snapshot the breaker state (the error
itself is only logged). -/
def recordFailureHT (cfg : CircuitBreakerConfig) (m : HealthMetrics) (b : CircuitBreaker)
    (now : Nat) : HealthMetrics × CircuitBreaker :=
  let m1 := { m with errorCount := m.errorCount + 1 }
  let b1 := recordFailure cfg b now
  let sb := currentState cfg b1 now
  ({ updateErrorRate m1 with circuitState := sb.1 }, sb.2)

/-- `updateSlotLag(highestSlot)`: `slotLag = highestSlot − lastSlot` as a
plain (possibly negative) integer difference. -/
def updateSlotLag (m : HealthMetrics) (highestSlot : Nat) : HealthMetrics :=
  { m with slotLag := (highestSlot : Int) - (m.lastSlot : Int) }

/-! ## Priority-fee estimator (`src/priority-fee/fee-estimator.ts`)

Fee samples are the `prioritizationFee` values returned by the RPC, as
naturals.  `feeValues.sort((a, b) => a - b)` is embedded as insertion
sort with `≤`.  The source computes `Math.ceil((p / 100) * n)` in IEEE
doubles; for `p ∈ {50, 75, 90}` this equals the exact rational ceiling
`⌈p·n/100⌉` (0.5 and 0.75 are dyadic, and for 0.9 the representation
error `≈2.2·10⁻¹⁷·n` stays below the half-ulp at `0.9·n`), embedded as
the `Nat` ceiling division `(p·n + 99) / 100`. -/

structure FeeEstimateConfig where
  targetPercentile : Nat
  maxMicroLamports : Nat
  minMicroLamports : Nat
deriving DecidableEq, Repr

def DEFAULT_PRIORITY_FEE_CONFIG : FeeEstimateConfig :=
  { targetPercentile := 75, maxMicroLamports := 1000000, minMicroLamports := 1000 }

/-- `FeeEstimateResult`, with the `percentiles` record flattened into
three fields. -/
structure FeeEstimateResult where
  microLamports : Nat
  p50 : Nat
  p75 : Nat
  p90 : Nat
  sampleCount : Nat
deriving DecidableEq, Repr

/-- The `percentile` helper: nearest-rank index
`ceil((p/100)·n) − 1`, floored at 0 (`Math.max(0, index)`), with the
out-of-range access defaulting to 0 (`?? 0`). -/
def percentile (sorted : List Nat) (p : Nat) : Nat :=
  if sorted.length = 0 then 0
  else
    let index : Int := (((p * sorted.length + 99) / 100 : Nat) : Int) - 1
    sorted.getD (max 0 index).toNat 0

/-- The non-zero fee samples, sorted ascending (`filter` then
`sort((a, b) => a - b)`). -/
def sortedFeeValues (fees : List Nat) : List Nat :=
  List.insertionSort (· ≤ ·) (fees.filter (fun f => 0 < f))

/-- `estimatePriorityFee` after the RPC answered with `fees`: discard
zero samples, sort ascending, take the three percentiles, select the
configured target (`switch` on 50 / 90, defaulting to 75) and clamp into
`[minMicroLamports, maxMicroLamports]`. -/
def estimatePriorityFee (fees : List Nat) (cfg : FeeEstimateConfig) : FeeEstimateResult :=
  let feeValues := sortedFeeValues fees
  let p50 := percentile feeValues 50
  let p75 := percentile feeValues 75
  let p90 := percentile feeValues 90
  let target :=
    if cfg.targetPercentile = 50 then p50
    else if cfg.targetPercentile = 90 then p90
    else p75
  let clamped := min (max target cfg.minMicroLamports) cfg.maxMicroLamports
  { microLamports := clamped, p50 := p50, p75 := p75, p90 := p90,
    sampleCount := feeValues.length }

/-! ## Connection pool (`src/rpc/connection-pool.ts`)

Connections are opaque handles (`connectionId : Nat`).  Each
`HealthTracker` in the pool carries its endpoint config, its metrics and
its breaker.  The breaker mutation performed inside `isAvailable`'s
`canExecute` read does not affect which connection is returned, so
`getConnection` returns the selected connection, whether the
all-unhealthy warning was logged, and the updated round-robin counter. -/

structure RpcEndpointConfig where
  url : String
  weight : Option Nat := none
  label : Option String := none
deriving DecidableEq, Repr

structure PoolTracker where
  endpoint : RpcEndpointConfig
  connectionId : Nat
  metrics : HealthMetrics
  breaker : CircuitBreaker
deriving DecidableEq, Repr

/-- `HealthTracker.isAvailable()`: delegates to the breaker's
`canExecute`. -/
def isAvailable (cfg : CircuitBreakerConfig) (t : PoolTracker) (now : Nat) : Bool :=
  (canExecute cfg t.breaker now).1

inductive PoolStrategy where
  | weightedRoundRobin
  | latencyBased
deriving DecidableEq, Repr

structure ConnectionPool where
  trackers : List PoolTracker
  roundRobinIndex : Nat
  strategy : PoolStrategy
deriving DecidableEq, Repr

/-- `selectByLatency`: sort the available trackers by `latencyEma`
ascending (JS `sort` is stable, ties keep list order) and return the
first; raises `ALL_ENDPOINTS_UNHEALTHY` when the list is empty. -/
def selectByLatency (available : List PoolTracker) : Except SolTxErrorCode Nat :=
  match List.insertionSort (fun a b => a.metrics.latencyEma ≤ b.metrics.latencyEma) available with
  | [] => .error .ALL_ENDPOINTS_UNHEALTHY
  | t :: _ => .ok t.connectionId

/-- The cumulative-weight walk of `selectByWeight`: return the tracker
whose cumulative-weight interval covers `position`. -/
def selectByWeightGo (position : Nat) (cumulative : Nat) :
    List PoolTracker → Except SolTxErrorCode Nat
  | [] => .error .ALL_ENDPOINTS_UNHEALTHY
  | t :: ts =>
    let c := cumulative + t.endpoint.weight.getD 1
    if position < c then .ok t.connectionId else selectByWeightGo position c ts

/-- `getConnection()`: filter the trackers whose breaker allows
execution; when none is available log a warning and fall back to the
first tracker's connection (raising `ALL_ENDPOINTS_UNHEALTHY` only when
the pool has no trackers at all); otherwise dispatch on the strategy.
Weighted round-robin reads `position = roundRobinIndex % totalWeight`
and then increments the counter. -/
def getConnection (cfg : CircuitBreakerConfig) (pool : ConnectionPool) (now : Nat) :
    Except SolTxErrorCode Nat × Bool × Nat :=
  let available := pool.trackers.filter (fun t => isAvailable cfg t now)
  if available.isEmpty then
    match pool.trackers with
    | [] => (.error .ALL_ENDPOINTS_UNHEALTHY, true, pool.roundRobinIndex)
    | t :: _ => (.ok t.connectionId, true, pool.roundRobinIndex)
  else
    match pool.strategy with
    | .latencyBased => (selectByLatency available, false, pool.roundRobinIndex)
    | .weightedRoundRobin =>
      let totalWeight := (available.map (fun t => t.endpoint.weight.getD 1)).sum
      let position := pool.roundRobinIndex % totalWeight
      (selectByWeightGo position 0 available, false, pool.roundRobinIndex + 1)

/-! ## Blockhash manager (`src/blockhash/blockhash-manager.ts`)

Sequential (non-overlapping) calls are modelled, so the in-flight
`fetchPromise` slot is `null` at every call boundary — it is set and
cleared within one `refreshBlockhash` awaiting its own fetch.  The RPC
`getLatestBlockhash` answer at each call is supplied as an oracle value,
and each manager operation reports how many RPC calls it made. -/

structure BlockhashInfo where
  blockhash : String
  lastValidBlockHeight : Nat
  fetchedAt : Nat
deriving DecidableEq, Repr

structure BlockhashConfig where
  ttlMs : Nat
  refreshIntervalMs : Nat
deriving DecidableEq, Repr

def DEFAULT_BLOCKHASH_CONFIG : BlockhashConfig :=
  { ttlMs := 60000, refreshIntervalMs := 30000 }

/-- The mutable state of `BlockhashManager` between sequential calls:
just the cache (the in-flight slot is empty at call boundaries). -/
structure BMState where
  cache : Option BlockhashInfo
deriving DecidableEq, Repr

/-- The RPC's `getLatestBlockhash` answer. -/
structure RpcBlockhash where
  blockhash : String
  lastValidBlockHeight : Nat
deriving DecidableEq, Repr

/-- Result of a manager call: the returned record, the state after the
call, and the number of `getLatestBlockhash` RPC calls made. -/
structure BMCall where
  info : BlockhashInfo
  st : BMState
  rpcCalls : Nat
deriving DecidableEq, Repr

/-- `isStale`: `Date.now() - fetchedAt > ttlMs`. -/
def isStale (cfg : BlockhashConfig) (info : BlockhashInfo) (now : Nat) : Bool :=
  cfg.ttlMs < now - info.fetchedAt

/-- `refreshBlockhash()` for a sequential caller: no in-flight fetch
exists, so it performs the fetch (one RPC call), stamps `fetchedAt = now`
and updates the cache. -/
def refreshBlockhash (st : BMState) (now : Nat) (rpc : RpcBlockhash) : BMCall :=
  let info : BlockhashInfo :=
    { blockhash := rpc.blockhash, lastValidBlockHeight := rpc.lastValidBlockHeight,
      fetchedAt := now }
  { info := info, st := { cache := some info }, rpcCalls := 1 }

/-- `getBlockhash()`: return the cache when present and not stale, else
delegate to `refreshBlockhash`. -/
def getBlockhash (cfg : BlockhashConfig) (st : BMState) (now : Nat) (rpc : RpcBlockhash) :
    BMCall :=
  match st.cache with
  | some c => if ¬ isStale cfg c now then { info := c, st := st, rpcCalls := 0 }
              else refreshBlockhash st now rpc
  | none => refreshBlockhash st now rpc

/-- `getCachedBlockhash()`: the record only when present and not stale;
never fetches. -/
def getCachedBlockhash (cfg : BlockhashConfig) (st : BMState) (now : Nat) :
    Option BlockhashInfo :=
  match st.cache with
  | some c => if ¬ isStale cfg c now then some c else none
  | none => none

/-! ## Send pipeline: transaction preparation and signing
(`src/sender/transaction-sender.ts`)

Public keys and program ids are opaque naturals.  JS object mutation is
made explicit: `prepareTransaction` either builds a fresh working copy
(`WorkingTx.copy`) or keeps `tx` as a reference to the caller's original
(`WorkingTx.originalRef`); `prepareAndSign` then applies
`signTransaction`'s in-place writes to whichever object `tx` denotes, and
returns the pair (original after, working after). -/

/-- Instruction payloads: the two compute-budget program instructions the
sender creates, and opaque payloads for everything else. -/
inductive InstrData where
  | setComputeUnitLimit (units : Nat)
  | setComputeUnitPrice (microLamports : Nat)
  | raw (tag : Nat)
deriving DecidableEq, Repr

/-- `ComputeBudgetProgram.programId`, as a distinguished opaque id. -/
def ComputeBudgetProgramId : Nat := 1

structure Instruction where
  programId : Nat
  data : InstrData
deriving DecidableEq, Repr

/-- `createComputeBudgetInstructions` from
`src/priority-fee/compute-budget.ts`: always the pair
`[SetComputeUnitLimit, SetComputeUnitPrice]`. -/
def createComputeBudgetInstructions (computeUnits microLamports : Nat) : List Instruction :=
  [⟨ComputeBudgetProgramId, .setComputeUnitLimit computeUnits⟩,
   ⟨ComputeBudgetProgramId, .setComputeUnitPrice microLamports⟩]

/-- A legacy `Transaction`: mutable instruction list, blockhash, fee
payer and signatures (signer public keys). -/
structure LegacyTransaction where
  instructions : List Instruction
  recentBlockhash : Option String := none
  feePayer : Option Nat := none
  signatures : List Nat := []
deriving DecidableEq, Repr

/-- A `VersionedTransaction`: its message (instruction list and
blockhash) and signatures. -/
structure VersionedTransactionM where
  messageInstructions : List Instruction
  messageRecentBlockhash : String
  signatures : List Nat
deriving DecidableEq, Repr

inductive SolanaTransaction where
  | legacy (t : LegacyTransaction)
  | versioned (t : VersionedTransactionM)
deriving DecidableEq, Repr

/-- `isLegacyTransaction` from `src/utils.ts` (no `version` field). -/
def isLegacyTransaction : SolanaTransaction → Bool
  | .legacy _ => true
  | .versioned _ => false

/-- The transaction's instruction list (`tx.instructions` for legacy,
the message's instruction table for versioned). -/
def instructionsOf : SolanaTransaction → List Instruction
  | .legacy t => t.instructions
  | .versioned t => t.messageInstructions

/-- The working transaction produced by `prepareTransaction`: either a
fresh copy or a reference aliasing the caller's original. -/
inductive WorkingTx where
  | copy (t : LegacyTransaction)
  | originalRef
deriving DecidableEq, Repr

/-- `prepareTransaction`: for a legacy transaction with priority fees
enabled (`config.priorityFee !== false`), build a fresh copy whose
instructions are the compute-budget pair followed by the original's
instructions with compute-budget ones filtered out; otherwise the working
transaction is the original reference and no fee is attached. -/
def prepareTransaction (priorityFeeEnabled : Bool) (original : SolanaTransaction)
    (feeAmount computeUnits : Nat) : WorkingTx × Option Nat :=
  match original with
  | .legacy t =>
    if priorityFeeEnabled then
      let budgetInstructions := createComputeBudgetInstructions computeUnits feeAmount
      let copy : LegacyTransaction :=
        { instructions := budgetInstructions
            ++ t.instructions.filter (fun ix => ix.programId != ComputeBudgetProgramId) }
      (.copy copy, some feeAmount)
    else
      (.originalRef, none)
  | .versioned _ => (.originalRef, none)

/-- The legacy branch of `signTransaction`: set `recentBlockhash` and
`feePayer`, then `tx.sign(...allSigners)`. -/
def signLegacy (t : LegacyTransaction) (blockhash : String) (signerPk : Nat)
    (allSigners : List Nat) : LegacyTransaction :=
  { t with recentBlockhash := some blockhash, feePayer := some signerPk,
           signatures := allSigners }

/-- The versioned branch of `signTransaction`: write
`tx.message.recentBlockhash` and `tx.sign(allSigners)`. -/
def signVersioned (t : VersionedTransactionM) (blockhash : String)
    (allSigners : List Nat) : VersionedTransactionM :=
  { t with messageRecentBlockhash := blockhash, signatures := allSigners }

/-- `signTransaction`, dispatching on `isLegacyTransaction`. -/
def signTransaction (tx : SolanaTransaction) (blockhash : String) (signerPk : Nat)
    (allSigners : List Nat) : SolanaTransaction :=
  match tx with
  | .legacy t => .legacy (signLegacy t blockhash signerPk allSigners)
  | .versioned t => .versioned (signVersioned t blockhash allSigners)

/-- One attempt's mutation footprint on the transactions: prepare the
working transaction, then sign it in place.  When the working transaction
is a copy, signing touches only the copy; when it is the original
reference, signing writes through to the caller's object.  Returns
(original after, working after). -/
def prepareAndSign (priorityFeeEnabled : Bool) (original : SolanaTransaction)
    (feeAmount computeUnits : Nat) (blockhash : String) (signerPk : Nat)
    (allSigners : List Nat) : SolanaTransaction × SolanaTransaction :=
  match prepareTransaction priorityFeeEnabled original feeAmount computeUnits with
  | (.copy c, _) => (original, .legacy (signLegacy c blockhash signerPk allSigners))
  | (.originalRef, _) =>
    let signed := signTransaction original blockhash signerPk allSigners
    (signed, signed)

/-! ## Send pipeline: the simulation gate (`runSimulation`) -/

structure SimulationConfig where
  commitment : String
  replaceRecentBlockhash : Bool
  sigVerify : Bool
deriving DecidableEq, Repr

/-- The sender config's `simulation` option:
`false | SimulationConfig | undefined`. -/
inductive SimulationSetting where
  | disabled
  | configured (cfg : SimulationConfig)
  | unset
deriving DecidableEq, Repr

/-- `this.config.simulation === false`. -/
def simulationIsFalse : SimulationSetting → Bool
  | .disabled => true
  | _ => false

/-- The gate of `runSimulation`:
`skip = options?.skipSimulation ?? (config.simulation === false)`; when
not skipped, `simulateTransaction` is invoked with the config (or
`undefined` when the setting is not a config object).  Returns (whether
`simulateTransaction` is invoked, the config passed to it). -/
def runSimulation (sim : SimulationSetting) (skipSimulation : Option Bool) :
    Bool × Option SimulationConfig :=
  let skip := skipSimulation.getD (simulationIsFalse sim)
  if skip then
    (false, none)
  else
    (true,
      match sim with
      | .configured c => some c
      | _ => none)

/-! ## Theorems -/

example : (classifyError ⟨"HTTP 429 Too many requests", none, none⟩).retryable = true := by decide

example : classifyError ⟨"blockhash not found", none, none⟩ =
    ⟨true, true, "BLOCKHASH_EXPIRED"⟩ := by decide

example : (classifyError ⟨"insufficient funds for transaction", none, none⟩).retryable = false := by
  decide

example : (classifyError ⟨"Connection reset", some "ECONNRESET", none⟩).retryable = true := by
  decide

example : (classifyError ⟨"Something random happened", none, none⟩).errorType = "UNKNOWN" := by
  decide

example :
    withRetry (fun a => if a < 1 then .error ⟨"429", none, none⟩ else .ok 7) 3 none =
      (.ok 7, 2) := rfl

/-- Equation: a successful attempt returns its value after one invocation. -/
theorem withRetryGo_ok {α : Type} {fn : Nat → Except JsError α}
    {pred : Option (JsError → Nat → Bool)} {a r : Nat} {v : α} (h : fn a = .ok v) :
    withRetryGo fn pred a r = (.ok v, 1) := by
  unfold withRetryGo
  rw [h]

/-- Equation: a failure on the last planned attempt raises
`RETRIES_EXHAUSTED` wrapping that failure. -/
theorem withRetryGo_last {α : Type} {fn : Nat → Except JsError α}
    {pred : Option (JsError → Nat → Bool)} {a : Nat} {e : JsError} (h : fn a = .error e) :
    withRetryGo fn pred a 0 = (.error (.retriesExhausted e), 1) := by
  unfold withRetryGo
  rw [h]

/-- Equation: a failure before the last attempt with a positive retry
decision recurses into the next attempt. -/
theorem withRetryGo_retry {α : Type} {fn : Nat → Except JsError α}
    {pred : Option (JsError → Nat → Bool)} {a r : Nat} {e : JsError}
    (h : fn a = .error e) (hd : retryDecision pred e a = true) :
    withRetryGo fn pred a (r + 1) =
      ((withRetryGo fn pred (a + 1) r).1, (withRetryGo fn pred (a + 1) r).2 + 1) := by
  conv_lhs => unfold withRetryGo
  rw [h]
  simp [hd]

/-- Equation: a failure before the last attempt with a negative retry
decision raises `NON_RETRYABLE` wrapping that failure. -/
theorem withRetryGo_stop {α : Type} {fn : Nat → Except JsError α}
    {pred : Option (JsError → Nat → Bool)} {a r : Nat} {e : JsError}
    (h : fn a = .error e) (hd : retryDecision pred e a = false) :
    withRetryGo fn pred a (r + 1) = (.error (.nonRetryable e), 1) := by
  unfold withRetryGo
  rw [h]
  simp [hd]

/-- The loop body consumes at most `remaining + 1` invocations of `fn`. -/
theorem withRetryGo_count_le {α : Type} (fn : Nat → Except JsError α)
    (pred : Option (JsError → Nat → Bool)) :
    ∀ r a, (withRetryGo fn pred a r).2 ≤ r + 1 := by
  intro r
  induction r with
  | zero =>
    intro a
    cases hf : fn a with
    | ok v => rw [withRetryGo_ok hf]
    | error e => rw [withRetryGo_last hf]
  | succ r ih =>
    intro a
    cases hf : fn a with
    | ok v =>
      rw [withRetryGo_ok hf]
      omega
    | error e =>
      cases hd : retryDecision pred e a with
      | true =>
        rw [withRetryGo_retry hf hd]
        have := ih (a + 1)
        simp only
        omega
      | false =>
        rw [withRetryGo_stop hf hd]
        simp only
        omega

/-- When the loop exits with `RETRIES_EXHAUSTED`, every planned attempt
was invoked, the wrapped cause is the last attempt's error, and every
attempt before the last failed with an error the classifier deems
retryable (the last attempt's error is not consulted). -/
theorem withRetryGo_exhausted {α : Type} (fn : Nat → Except JsError α) :
    ∀ r a e, (withRetryGo fn none a r).1 = .error (.retriesExhausted e) →
      fn (a + r) = .error e ∧ (withRetryGo fn none a r).2 = r + 1 ∧
        ∀ j, a ≤ j → j < a + r → ∃ ej, fn j = .error ej ∧ (classifyError ej).retryable := by
  intro r
  induction r with
  | zero =>
    intro a e h
    cases hf : fn a with
    | ok v => rw [withRetryGo_ok hf] at h; simp at h
    | error e' =>
      rw [withRetryGo_last hf] at h
      simp at h
      subst h
      exact ⟨hf, by rw [withRetryGo_last hf], fun j hj hj' => absurd hj' (by omega)⟩
  | succ r ih =>
    intro a e h
    cases hf : fn a with
    | ok v => rw [withRetryGo_ok hf] at h; simp at h
    | error e' =>
      cases hd : retryDecision none e' a with
      | false =>
        rw [withRetryGo_stop hf hd] at h
        simp at h
      | true =>
        rw [withRetryGo_retry hf hd] at h
        simp only at h
        have hrec := ih (a + 1) e h
        refine ⟨by rw [show a + (r + 1) = a + 1 + r by omega]; exact hrec.1, ?_, ?_⟩
        · rw [withRetryGo_retry hf hd]
          simp only
          omega
        · intro j hj hj'
          rcases Nat.eq_or_lt_of_le hj with rfl | hlt
          · refine ⟨e', hf, ?_⟩
            simpa [retryDecision] using hd
          · exact hrec.2.2 j (by omega) (by omega)

/-- If the attempts at indices `a, …, a + k - 1` fail with retryable
errors and attempt `a + k` (with `k < r + 1` attempts still allowed)
fails with a non-retryable error, the loop raises `NON_RETRYABLE`
wrapping that error after exactly `k + 1` invocations. -/
theorem withRetryGo_nonretryable {α : Type} (fn : Nat → Except JsError α) :
    ∀ r a k e, k < r →
      (∀ j, j < k → ∃ ej, fn (a + j) = .error ej ∧ (classifyError ej).retryable) →
      fn (a + k) = .error e → (classifyError e).retryable = false →
      withRetryGo fn none a r = (.error (.nonRetryable e), k + 1) := by
  intro r
  induction r with
  | zero =>
    intro a k e hk
    omega
  | succ r ih =>
    intro a k e hk hpre hfk hcls
    cases k with
    | zero =>
      have hf : fn a = .error e := by simpa using hfk
      exact withRetryGo_stop hf (by simpa [retryDecision] using hcls)
    | succ k' =>
      obtain ⟨e0, hf0, hr0⟩ := hpre 0 (by omega)
      have hf : fn a = .error e0 := by simpa using hf0
      rw [withRetryGo_retry hf (by simpa [retryDecision] using hr0)]
      have hrec := ih (a + 1) k' e (by omega)
        (fun j hj => by
          obtain ⟨ej, hej, hrj⟩ := hpre (j + 1) (by omega)
          exact ⟨ej, by rw [show a + 1 + j = a + (j + 1) by omega]; exact hej, hrj⟩)
        (by rw [show a + 1 + k' = a + (k' + 1) by omega]; exact hfk) hcls
      rw [hrec]

/-- C1 (amended): without a custom `retryPredicate`, `withRetry` invokes
`fn` at most `maxRetries + 1` times; a non-retryable failure on an attempt
before the last — reached because all earlier attempts failed retryably —
raises `NON_RETRYABLE` wrapping it immediately, so a first-invocation
non-retryable failure means exactly one invocation; and `RETRIES_EXHAUSTED`
wrapping the last error is raised only when all `maxRetries + 1` planned
attempts were invoked and every error before the last was retryable (the
last attempt's error is wrapped without being classified). -/
theorem C1_withRetry_attempt_accounting {α : Type} (fn : Nat → Except JsError α)
    (maxRetries : Nat) :
    (withRetry fn maxRetries none).2 ≤ maxRetries + 1
    ∧ (∀ k e, k < maxRetries →
        (∀ j, j < k → ∃ ej, fn j = .error ej ∧ (classifyError ej).retryable) →
        fn k = .error e → (classifyError e).retryable = false →
        withRetry fn maxRetries none = (.error (.nonRetryable e), k + 1))
    ∧ (∀ e, 0 < maxRetries → fn 0 = .error e → (classifyError e).retryable = false →
        withRetry fn maxRetries none = (.error (.nonRetryable e), 1))
    ∧ (∀ e, (withRetry fn maxRetries none).1 = .error (.retriesExhausted e) →
        (withRetry fn maxRetries none).2 = maxRetries + 1 ∧ fn maxRetries = .error e ∧
          ∀ j, j < maxRetries → ∃ ej, fn j = .error ej ∧ (classifyError ej).retryable) := by
  refine ⟨withRetryGo_count_le fn none maxRetries 0, ?_, ?_, ?_⟩
  · intro k e hk hpre hfk hcls
    exact withRetryGo_nonretryable fn maxRetries 0 k e hk
      (fun j hj => by simpa using hpre j hj) (by simpa using hfk) hcls
  · intro e hpos hf0 hcls
    exact withRetryGo_nonretryable fn maxRetries 0 0 e hpos
      (fun j hj => absurd hj (by omega)) (by simpa using hf0) hcls
  · intro e h
    have := withRetryGo_exhausted fn maxRetries 0 e h
    exact ⟨this.2.1, by simpa using this.1, fun j hj => this.2.2 j (by omega) (by simpa using hj)⟩

/-- C1 counterexample: with `maxRetries = 0`, a single attempt failing
with the non-retryable error "insufficient funds" still raises
`RETRIES_EXHAUSTED` (the final attempt's error is never classified), so
`RETRIES_EXHAUSTED` is not raised only when all planned attempts failed
with retryable errors. -/
theorem C1_counterexample :
    withRetry (α := Unit) (fun _ => .error ⟨"insufficient funds", none, none⟩) 0 none
        = (.error (.retriesExhausted ⟨"insufficient funds", none, none⟩), 1)
    ∧ (classifyError ⟨"insufficient funds", none, none⟩).retryable = false :=
  ⟨rfl, by decide⟩

/-- C1 witness: two planned retries, attempt 0 fails with a retryable
429 error and attempt 1 with non-retryable "insufficient funds":
`NON_RETRYABLE` is raised after exactly two invocations. -/
theorem C1_witness :
    withRetry (α := Unit)
        (fun a => if a = 0 then .error ⟨"429", none, none⟩
                  else .error ⟨"insufficient funds", none, none⟩) 2 none
      = (.error (.nonRetryable ⟨"insufficient funds", none, none⟩), 2) := by
  refine (C1_withRetry_attempt_accounting (α := Unit)
      (fun a => if a = 0 then .error ⟨"429", none, none⟩
                else .error ⟨"insufficient funds", none, none⟩) 2).2.1
    1 ⟨"insufficient funds", none, none⟩ (by omega) ?_ rfl (by decide)
  intro j hj
  have hj0 : j = 0 := by omega
  subst hj0
  exact ⟨⟨"429", none, none⟩, rfl, by decide⟩

/-- C6 counterexample: a structured `SolTxError` coded `BLOCKHASH_EXPIRED`
whose message contains the non-retryable substring "insufficient funds"
(and no blockhash-expired message pattern) is classified non-retryable —
the non-retryable substring check precedes the typed blockhash-expired
check, so not every error typed `BLOCKHASH_EXPIRED` yields
`retryable = true`. -/
theorem C6_counterexample :
    (classifyError ⟨"insufficient funds", none, some .BLOCKHASH_EXPIRED⟩).retryable = false
    ∧ isBlockhashExpired ⟨"insufficient funds", none, some .BLOCKHASH_EXPIRED⟩ = true := by
  decide

/-- C6 (amended): `classifyError` applies its rules first-match-wins: any
error whose message contains a non-retryable substring (in particular one
also containing a blockhash-expired pattern) is `retryable = false`; an
error that is typed `BLOCKHASH_EXPIRED` or whose message contains a
blockhash-expired pattern, provided its message contains no non-retryable
substring, classifies as `retryable = true`, `needsResign = true` with
errorType `BLOCKHASH_EXPIRED` — in particular this rule fires before the
network-error-code rule, regardless of the errno code; and the
blockhash-expired test is exactly "typed `BLOCKHASH_EXPIRED` or a resign
message pattern". -/
theorem C6_classifier_precedence (e : JsError) :
    ((∃ p ∈ NON_RETRYABLE_MESSAGES, strIncludes e.message p = true) →
        (classifyError e).retryable = false)
    ∧ ((∀ p ∈ NON_RETRYABLE_MESSAGES, strIncludes e.message p = false) →
        isBlockhashExpired e = true →
        classifyError e = ⟨true, true, "BLOCKHASH_EXPIRED"⟩)
    ∧ (isBlockhashExpired e = true ↔
        (e.solTxCode = some .BLOCKHASH_EXPIRED
          ∨ ∃ p ∈ NEEDS_RESIGN_MESSAGES, strIncludes e.message p = true)) := by
  refine ⟨?_, ?_, ?_⟩
  · intro hex
    cases hfind : NON_RETRYABLE_MESSAGES.find? (fun p => strIncludes e.message p) with
    | none =>
      rw [List.find?_eq_none] at hfind
      obtain ⟨p, hp, hinc⟩ := hex
      exact absurd hinc (by simpa using hfind p hp)
    | some p =>
      unfold classifyError
      rw [hfind]
  · intro hall hbh
    have hfind : NON_RETRYABLE_MESSAGES.find? (fun p => strIncludes e.message p) = none := by
      rw [List.find?_eq_none]
      intro p hp
      simp [hall p hp]
    unfold classifyError
    rw [hfind, hbh]
    rfl
  · unfold isBlockhashExpired
    simp [List.any_eq_true]

/-- C6 witness: "insufficient funds and blockhash not found" (both
patterns present) is non-retryable; "blockhash not found" with errno
`ECONNRESET` still classifies as `BLOCKHASH_EXPIRED`, not as a network
error. -/
theorem C6_witness :
    (classifyError ⟨"insufficient funds and blockhash not found", none, none⟩).retryable = false
    ∧ classifyError ⟨"blockhash not found", some "ECONNRESET", none⟩
        = ⟨true, true, "BLOCKHASH_EXPIRED"⟩ := by
  constructor
  · exact (C6_classifier_precedence ⟨"insufficient funds and blockhash not found", none, none⟩).1
      ⟨"insufficient funds", by decide, by decide⟩
  · exact (C6_classifier_precedence ⟨"blockhash not found", some "ECONNRESET", none⟩).2.1
      (by decide) (by decide)

example :
    (recordFailure { failureThreshold := 2, resetTimeoutMs := 5000, windowMs := 60000 }
      (recordFailure { failureThreshold := 2, resetTimeoutMs := 5000, windowMs := 60000 }
        CircuitBreaker.init 10) 20).state = .OPEN := by decide

example :
    (currentState { failureThreshold := 2, resetTimeoutMs := 5000, windowMs := 60000 }
      { state := .OPEN, failures := [10, 20], lastOpenedAt := 20 } 5020).1 = .HALF_OPEN := by
  decide

/-- C4: in `CLOSED`, a `recordFailure` that brings the count of failures
inside the `windowMs`-wide sliding window (the pruned window plus the new
failure) to at least `failureThreshold` opens the breaker and stamps
`lastOpenedAt`; from `OPEN`, any state read (`currentState` or
`canExecute`) at least `resetTimeoutMs` after `lastOpenedAt` returns
`HALF_OPEN` (and `canExecute` allows execution); in `HALF_OPEN` the next
recorded outcome is decisive — `recordSuccess` closes the breaker and
clears the window, `recordFailure` reopens it and resets the timer. -/
theorem C4_circuit_breaker_fsm (cfg : CircuitBreakerConfig) (b : CircuitBreaker) (now : Nat) :
    (b.state = .CLOSED →
        cfg.failureThreshold ≤ (b.failures.filter (fun t => now - t < cfg.windowMs)).length + 1 →
        (recordFailure cfg b now).state = .OPEN ∧ (recordFailure cfg b now).lastOpenedAt = now)
    ∧ (b.state = .OPEN → cfg.resetTimeoutMs ≤ now - b.lastOpenedAt →
        (currentState cfg b now).1 = .HALF_OPEN ∧ (currentState cfg b now).2.state = .HALF_OPEN
          ∧ (canExecute cfg b now).1 = true ∧ (canExecute cfg b now).2.state = .HALF_OPEN)
    ∧ (b.state = .HALF_OPEN →
        recordSuccess b = { b with state := .CLOSED, failures := [] }
          ∧ recordFailure cfg b now = { b with state := .OPEN, lastOpenedAt := now }) := by
  refine ⟨?_, ?_, ?_⟩
  · intro hc hth
    have h1 : ¬ (b.state = CircuitState.HALF_OPEN) := by simp [hc]
    simp [recordFailure, h1, hth]
  · intro ho hrt
    have h1 : b.state = CircuitState.OPEN ∧ cfg.resetTimeoutMs ≤ now - b.lastOpenedAt := ⟨ho, hrt⟩
    simp [currentState, canExecute, h1]
  · intro hh
    refine ⟨by simp [recordSuccess, hh], by simp [recordFailure, hh]⟩

/-- C4 witness: with threshold 2, a second failure at `now = 20` (one
prior failure at 10 inside the window) opens the breaker; an open breaker
stamped at 20 reads `HALF_OPEN` at 5020 with `resetTimeoutMs = 5000`; a
half-open breaker closes on success and reopens on failure. -/
theorem C4_witness :
    (recordFailure ⟨2, 5000, 60000⟩ ⟨.CLOSED, [10], 0⟩ 20).state = .OPEN
    ∧ (currentState ⟨2, 5000, 60000⟩ ⟨.OPEN, [10, 20], 20⟩ 5020).1 = .HALF_OPEN
    ∧ (canExecute ⟨2, 5000, 60000⟩ ⟨.OPEN, [10, 20], 20⟩ 5020).1 = true
    ∧ recordSuccess ⟨.HALF_OPEN, [10, 20], 20⟩ = ⟨.CLOSED, [], 20⟩
    ∧ recordFailure ⟨2, 5000, 60000⟩ ⟨.HALF_OPEN, [10, 20], 20⟩ 99 = ⟨.OPEN, [10, 20], 99⟩ := by
  refine ⟨((C4_circuit_breaker_fsm ⟨2, 5000, 60000⟩ ⟨.CLOSED, [10], 0⟩ 20).1 rfl (by decide)).1,
    ((C4_circuit_breaker_fsm ⟨2, 5000, 60000⟩ ⟨.OPEN, [10, 20], 20⟩ 5020).2.1 rfl (by decide)).1,
    ((C4_circuit_breaker_fsm ⟨2, 5000, 60000⟩ ⟨.OPEN, [10, 20], 20⟩ 5020).2.1 rfl
      (by decide)).2.2.1,
    ((C4_circuit_breaker_fsm ⟨2, 5000, 60000⟩ ⟨.HALF_OPEN, [10, 20], 20⟩ 99).2.2 rfl).1,
    ((C4_circuit_breaker_fsm ⟨2, 5000, 60000⟩ ⟨.HALF_OPEN, [10, 20], 20⟩ 99).2.2 rfl).2⟩

/-- C10: with the breaker raw-`OPEN`, `recordSuccess` is an exact no-op
even when `resetTimeoutMs` has elapsed since `lastOpenedAt` — state,
failure window and timer are all unchanged — because the
`OPEN → HALF_OPEN` promotion lives only in the `currentState` read; after
such a read has promoted the breaker, a recorded success closes it and
clears the window. -/
theorem C10_open_recordSuccess_noop (cfg : CircuitBreakerConfig) (b : CircuitBreaker)
    (now : Nat) :
    (b.state = .OPEN → recordSuccess b = b)
    ∧ (b.state = .OPEN → cfg.resetTimeoutMs ≤ now - b.lastOpenedAt →
        (currentState cfg b now).2.state = .HALF_OPEN
          ∧ recordSuccess (currentState cfg b now).2
              = { b with state := .CLOSED, failures := [] }) := by
  constructor
  · intro ho
    simp [recordSuccess, ho]
  · intro ho hrt
    have h1 : b.state = CircuitState.OPEN ∧ cfg.resetTimeoutMs ≤ now - b.lastOpenedAt := ⟨ho, hrt⟩
    simp [currentState, recordSuccess, h1]

/-- C10 witness: an open breaker stamped at 20 with reset timeout 5000
ignores a success recorded at any time (no state read intervening), and
closes only after a `currentState` read at 5020 has promoted it. -/
theorem C10_witness :
    recordSuccess ⟨.OPEN, [10, 20], 20⟩ = ⟨.OPEN, [10, 20], 20⟩
    ∧ recordSuccess (currentState ⟨2, 5000, 60000⟩ ⟨.OPEN, [10, 20], 20⟩ 5020).2
        = ⟨.CLOSED, [], 20⟩ :=
  ⟨(C10_open_recordSuccess_noop ⟨2, 5000, 60000⟩ ⟨.OPEN, [10, 20], 20⟩ 5020).1 rfl,
    ((C10_open_recordSuccess_noop ⟨2, 5000, 60000⟩ ⟨.OPEN, [10, 20], 20⟩ 5020).2 rfl
      (by decide)).2⟩

/-- C9 counterexample: a first sample of latency 0 leaves the EMA at 0,
so the second sample of latency 10 takes the first-sample branch
(`latencyEma === 0`) and sets the EMA to 10, not to the claimed blend
`0.3·10 + 0.7·0 = 3`. -/
theorem C9_counterexample :
    (recordSuccessHT DEFAULT_CIRCUIT_BREAKER_CONFIG
        (recordSuccessHT DEFAULT_CIRCUIT_BREAKER_CONFIG HealthMetrics.init CircuitBreaker.init
          0 none 100).1
        (recordSuccessHT DEFAULT_CIRCUIT_BREAKER_CONFIG HealthMetrics.init CircuitBreaker.init
          0 none 100).2 10 none 200).1.latencyEma = 10
    ∧ EMA_ALPHA * 10 + (1 - EMA_ALPHA) *
        (recordSuccessHT DEFAULT_CIRCUIT_BREAKER_CONFIG HealthMetrics.init CircuitBreaker.init
          0 none 100).1.latencyEma = 3
    ∧ (10 : ℚ) ≠ 3 := by
  refine ⟨?_, ?_, by norm_num⟩
  · rfl
  · norm_num [recordSuccessHT, updateErrorRate, EMA_ALPHA, HealthMetrics.init,
      CircuitBreaker.init, recordSuccess, currentState, DEFAULT_CIRCUIT_BREAKER_CONFIG]

/-- C9 (amended): `recordSuccess` with latency `x` sets the EMA to `x`
whenever the stored EMA is 0 (in particular on the first sample, since a
fresh tracker starts at 0 — but also after any run of zero-latency
samples), and updates it to `0.3·x + 0.7·previous` whenever the stored
EMA is nonzero. -/
theorem C9_latency_ema_update (cfg : CircuitBreakerConfig) (m : HealthMetrics)
    (b : CircuitBreaker) (x : ℚ) (slot : Option Nat) (now : Nat) :
    (m.latencyEma = 0 → (recordSuccessHT cfg m b x slot now).1.latencyEma = x)
    ∧ (m.latencyEma ≠ 0 →
        (recordSuccessHT cfg m b x slot now).1.latencyEma
          = (3 : ℚ)/10 * x + (7 : ℚ)/10 * m.latencyEma) := by
  have h710 : (1 : ℚ) - 3/10 = 7/10 := by norm_num
  cases slot with
  | none =>
    constructor <;> intro h <;>
      simp [recordSuccessHT, updateErrorRate, EMA_ALPHA, h, h710]
  | some s =>
    constructor <;> intro h <;>
      simp [recordSuccessHT, updateErrorRate, EMA_ALPHA, h, h710]

example : estimatePriorityFee [0, 5000, 3000, 0, 10000] DEFAULT_PRIORITY_FEE_CONFIG =
    { microLamports := 10000, p50 := 5000, p75 := 10000, p90 := 10000, sampleCount := 3 } := by
  decide

example : (estimatePriorityFee [] DEFAULT_PRIORITY_FEE_CONFIG).microLamports = 1000 := by decide

/-- The `Nat` ceiling division by 100 computes the rational ceiling. -/
theorem ceil_div_hundred (m : Nat) : ⌈(m : ℚ) / 100⌉ = (((m + 99) / 100 : Nat) : Int) := by
  rw [Int.ceil_eq_iff]
  constructor
  · rw [lt_div_iff (by norm_num : (0:ℚ) < 100)]
    have h : ((m + 99) / 100 : Nat) * 100 < m + 100 := by omega
    have h' : ((((m + 99) / 100 : Nat) : Int) : ℚ) * 100 < (m : ℚ) + 100 := by exact_mod_cast h
    linarith
  · rw [div_le_iff (by norm_num : (0:ℚ) < 100)]
    have h : m ≤ ((m + 99) / 100 : Nat) * 100 := by omega
    exact_mod_cast h

/-- C5: `estimatePriorityFee` works on the non-zero samples sorted
ascending (a sorted permutation of the positive samples); on a non-empty
sample set, `percentile` is nearest-rank with index
`⌈p/100 × n⌉ − 1` clamped to `[0, n − 1]`; the configured target
percentile (switch on 50/90, default 75) is selected and clamped into
`[minMicroLamports, maxMicroLamports]`; and an empty non-zero sample set
yields exactly `minMicroLamports`. -/
theorem C5_priority_fee_estimator (fees : List Nat) (cfg : FeeEstimateConfig)
    (hmm : cfg.minMicroLamports ≤ cfg.maxMicroLamports) :
    (List.Sorted (· ≤ ·) (sortedFeeValues fees)
      ∧ List.Perm (sortedFeeValues fees) (fees.filter (fun f => 0 < f)))
    ∧ (∀ p : Nat, 0 < p → p ≤ 100 → sortedFeeValues fees ≠ [] →
        (max 0 (⌈(p : ℚ) / 100 * ((sortedFeeValues fees).length : ℚ)⌉ - 1)).toNat
            ≤ (sortedFeeValues fees).length - 1
        ∧ percentile (sortedFeeValues fees) p
            = (sortedFeeValues fees).getD
                (max 0 (⌈(p : ℚ) / 100 * ((sortedFeeValues fees).length : ℚ)⌉ - 1)).toNat 0)
    ∧ ((estimatePriorityFee fees cfg).microLamports
          = min (max (if cfg.targetPercentile = 50 then percentile (sortedFeeValues fees) 50
                      else if cfg.targetPercentile = 90 then percentile (sortedFeeValues fees) 90
                      else percentile (sortedFeeValues fees) 75)
              cfg.minMicroLamports) cfg.maxMicroLamports
        ∧ cfg.minMicroLamports ≤ (estimatePriorityFee fees cfg).microLamports
        ∧ (estimatePriorityFee fees cfg).microLamports ≤ cfg.maxMicroLamports)
    ∧ (fees.filter (fun f => 0 < f) = [] →
        (estimatePriorityFee fees cfg).microLamports = cfg.minMicroLamports) := by
  refine ⟨⟨List.sorted_insertionSort _ _, List.perm_insertionSort _ _⟩, ?_, ?_, ?_⟩
  · intro p hp hp100 hne
    have hn : (sortedFeeValues fees).length ≠ 0 := by
      simpa [List.length_eq_zero] using hne
    have hceil : ⌈(p : ℚ) / 100 * ((sortedFeeValues fees).length : ℚ)⌉
        = (((p * (sortedFeeValues fees).length + 99) / 100 : Nat) : Int) := by
      rw [show (p : ℚ) / 100 * ((sortedFeeValues fees).length : ℚ)
            = ((p * (sortedFeeValues fees).length : Nat) : ℚ) / 100 by push_cast; ring]
      exact ceil_div_hundred _
    have hq : p * (sortedFeeValues fees).length ≤ 100 * (sortedFeeValues fees).length :=
      Nat.mul_le_mul_right _ hp100
    have hq1 : 0 < p * (sortedFeeValues fees).length :=
      Nat.mul_pos hp (Nat.pos_of_ne_zero hn)
    constructor
    · rw [hceil]
      omega
    · rw [hceil]
      unfold percentile
      rw [if_neg hn]
  · have hb : (estimatePriorityFee fees cfg).microLamports
        = min (max (if cfg.targetPercentile = 50 then percentile (sortedFeeValues fees) 50
                    else if cfg.targetPercentile = 90 then percentile (sortedFeeValues fees) 90
                    else percentile (sortedFeeValues fees) 75)
            cfg.minMicroLamports) cfg.maxMicroLamports := rfl
    refine ⟨hb, ?_, ?_⟩ <;> rw [hb] <;> omega
  · intro hempty
    have h : sortedFeeValues fees = [] := by
      rw [sortedFeeValues, hempty]
      rfl
    have hp : ∀ p, percentile (sortedFeeValues fees) p = 0 := by
      intro p
      rw [h]
      rfl
    have hb : (estimatePriorityFee fees cfg).microLamports
        = min (max (if cfg.targetPercentile = 50 then percentile (sortedFeeValues fees) 50
                    else if cfg.targetPercentile = 90 then percentile (sortedFeeValues fees) 90
                    else percentile (sortedFeeValues fees) 75)
            cfg.minMicroLamports) cfg.maxMicroLamports := rfl
    rw [hb, hp, hp, hp]
    simp only [ite_self]
    omega

/-- C5 witness: with the default config (min 1000, max 1000000) the
estimate over samples `[0, 5000, 3000, 0, 10000]` lies inside the clamp
interval, and with no samples it is exactly the configured minimum. -/
theorem C5_witness :
    1000 ≤ (estimatePriorityFee [0, 5000, 3000, 0, 10000]
        DEFAULT_PRIORITY_FEE_CONFIG).microLamports
    ∧ (estimatePriorityFee [0, 5000, 3000, 0, 10000]
        DEFAULT_PRIORITY_FEE_CONFIG).microLamports ≤ 1000000
    ∧ (estimatePriorityFee [] DEFAULT_PRIORITY_FEE_CONFIG).microLamports = 1000 :=
  ⟨(C5_priority_fee_estimator [0, 5000, 3000, 0, 10000] DEFAULT_PRIORITY_FEE_CONFIG
      (by decide)).2.2.1.2.1,
    (C5_priority_fee_estimator [0, 5000, 3000, 0, 10000] DEFAULT_PRIORITY_FEE_CONFIG
      (by decide)).2.2.1.2.2,
    (C5_priority_fee_estimator [] DEFAULT_PRIORITY_FEE_CONFIG (by decide)).2.2.2 rfl⟩

/-- C7: when no tracker's breaker allows execution, `getConnection` does
not fail (given the pool holds at least one tracker — the code raises
only for a pool with no endpoints configured at all): it emits the
all-unhealthy warning and returns the first tracker's connection as a
fallback. -/
theorem C7_getConnection_fallback (cfg : CircuitBreakerConfig) (pool : ConnectionPool)
    (now : Nat) (hne : pool.trackers ≠ [])
    (hempty : pool.trackers.filter (fun t => isAvailable cfg t now) = []) :
    (getConnection cfg pool now).1 = .ok ((pool.trackers.head hne).connectionId)
    ∧ (getConnection cfg pool now).2.1 = true := by
  obtain ⟨trackers, rr, strat⟩ := pool
  cases trackers with
  | nil => exact absurd rfl hne
  | cons t ts =>
    unfold getConnection
    simp only
    rw [hempty]
    simp

/-- C7 witness: a single-endpoint pool whose breaker is freshly `OPEN`
(no tracker available) still returns that endpoint's connection, with
the warning flag set. -/
theorem C7_witness :
    (getConnection DEFAULT_CIRCUIT_BREAKER_CONFIG
        ⟨[⟨⟨"https://rpc.example", none, none⟩, 42, HealthMetrics.init, ⟨.OPEN, [], 1000⟩⟩],
          0, .weightedRoundRobin⟩ 1000).1 = .ok 42
    ∧ (getConnection DEFAULT_CIRCUIT_BREAKER_CONFIG
        ⟨[⟨⟨"https://rpc.example", none, none⟩, 42, HealthMetrics.init, ⟨.OPEN, [], 1000⟩⟩],
          0, .weightedRoundRobin⟩ 1000).2.1 = true :=
  C7_getConnection_fallback DEFAULT_CIRCUIT_BREAKER_CONFIG
    ⟨[⟨⟨"https://rpc.example", none, none⟩, 42, HealthMetrics.init, ⟨.OPEN, [], 1000⟩⟩],
      0, .weightedRoundRobin⟩ 1000 (by decide) (by decide)

/-- C8: `getBlockhash` returns the cached record unchanged — zero RPC
calls, state untouched — whenever the cache is present and fresh, and
delegates to `refreshBlockhash` otherwise; consequently, starting from an
empty cache, a first call at `t0` followed by a second call at `t1` with
`t1 − t0 ≤ ttlMs` yields the same record twice and exactly one
`getLatestBlockhash` RPC across the two calls. -/
theorem C8_blockhash_cache (cfg : BlockhashConfig) (st : BMState) (t0 t1 : Nat)
    (rpc0 rpc1 : RpcBlockhash) :
    (∀ c, st.cache = some c → isStale cfg c t0 = false →
        getBlockhash cfg st t0 rpc0 = { info := c, st := st, rpcCalls := 0 })
    ∧ (∀ c, st.cache = some c → isStale cfg c t0 = true →
        getBlockhash cfg st t0 rpc0 = refreshBlockhash st t0 rpc0)
    ∧ (st.cache = none → getBlockhash cfg st t0 rpc0 = refreshBlockhash st t0 rpc0)
    ∧ (st.cache = none → t1 - t0 ≤ cfg.ttlMs →
        (getBlockhash cfg (getBlockhash cfg st t0 rpc0).st t1 rpc1).info
            = (getBlockhash cfg st t0 rpc0).info
        ∧ (getBlockhash cfg st t0 rpc0).rpcCalls
              + (getBlockhash cfg (getBlockhash cfg st t0 rpc0).st t1 rpc1).rpcCalls = 1) := by
  refine ⟨?_, ?_, ?_, ?_⟩
  · intro c hc hfresh
    simp [getBlockhash, hc, hfresh]
  · intro c hc hstale
    simp [getBlockhash, hc, hstale]
  · intro hc
    simp [getBlockhash, hc]
  · intro hc hwithin
    have h1 : getBlockhash cfg st t0 rpc0
        = ⟨⟨rpc0.blockhash, rpc0.lastValidBlockHeight, t0⟩,
            ⟨some ⟨rpc0.blockhash, rpc0.lastValidBlockHeight, t0⟩⟩, 1⟩ := by
      simp [getBlockhash, hc, refreshBlockhash]
    rw [h1]
    have hfresh : isStale cfg ⟨rpc0.blockhash, rpc0.lastValidBlockHeight, t0⟩ t1 = false := by
      simp only [isStale, decide_eq_false_iff_not]
      simp only [not_lt]
      omega
    have h2 : getBlockhash cfg ⟨some ⟨rpc0.blockhash, rpc0.lastValidBlockHeight, t0⟩⟩ t1 rpc1
        = ⟨⟨rpc0.blockhash, rpc0.lastValidBlockHeight, t0⟩,
            ⟨some ⟨rpc0.blockhash, rpc0.lastValidBlockHeight, t0⟩⟩, 0⟩ := by
      simp [getBlockhash, hfresh]
    rw [h2]
    exact ⟨rfl, rfl⟩

/-- C8 witness: from a cold cache, two sequential `getBlockhash` calls at
times 100 and 50100 (within the 60000 ms TTL) return the identical
record and perform exactly one RPC in total. -/
theorem C8_witness :
    (getBlockhash DEFAULT_BLOCKHASH_CONFIG
        (getBlockhash DEFAULT_BLOCKHASH_CONFIG ⟨none⟩ 100 ⟨"hashA", 5000⟩).st
        50100 ⟨"hashB", 6000⟩).info
      = (getBlockhash DEFAULT_BLOCKHASH_CONFIG ⟨none⟩ 100 ⟨"hashA", 5000⟩).info
    ∧ (getBlockhash DEFAULT_BLOCKHASH_CONFIG ⟨none⟩ 100 ⟨"hashA", 5000⟩).rpcCalls
        + (getBlockhash DEFAULT_BLOCKHASH_CONFIG
            (getBlockhash DEFAULT_BLOCKHASH_CONFIG ⟨none⟩ 100 ⟨"hashA", 5000⟩).st
            50100 ⟨"hashB", 6000⟩).rpcCalls = 1 :=
  (C8_blockhash_cache DEFAULT_BLOCKHASH_CONFIG ⟨none⟩ 100 50100 ⟨"hashA", 5000⟩
    ⟨"hashB", 6000⟩).2.2.2 rfl (by decide)

/-- C2 counterexample: a versioned transaction passed to the pipeline is
mutated — the working transaction is the original reference, and signing
writes the new blockhash and signatures into it — so the original
user-supplied transaction object is not "never mutated". -/
theorem C2_counterexample :
    (prepareAndSign true (.versioned ⟨[⟨9, .raw 0⟩], "oldhash", []⟩) 5 200000
        "newhash" 7 [7]).1
      ≠ .versioned ⟨[⟨9, .raw 0⟩], "oldhash", []⟩ := by
  decide

/-- C2 (amended): for a legacy transaction with priority fees enabled the
pipeline signs a fresh working copy and the original object is completely
unchanged; the copy's first two instructions are exactly the fresh
compute-budget pair (CU-limit then CU-price) and the rest are the
original's instructions with pre-existing compute-budget instructions
excluded.  For a versioned transaction (any priority-fee setting) and for
a legacy transaction with priority fees disabled, the working transaction
is the original reference — signing mutates the original's blockhash and
signature fields — but the original's instruction list is still
unchanged. -/
theorem C2_prepare_no_instruction_mutation (t : LegacyTransaction)
    (v : VersionedTransactionM) (enabled : Bool) (feeAmount computeUnits : Nat)
    (blockhash : String) (signerPk : Nat) (allSigners : List Nat) :
    ((prepareAndSign true (.legacy t) feeAmount computeUnits blockhash signerPk
        allSigners).1 = .legacy t
      ∧ instructionsOf (prepareAndSign true (.legacy t) feeAmount computeUnits blockhash
          signerPk allSigners).2
          = createComputeBudgetInstructions computeUnits feeAmount
              ++ t.instructions.filter (fun ix => ix.programId != ComputeBudgetProgramId)
      ∧ (instructionsOf (prepareAndSign true (.legacy t) feeAmount computeUnits blockhash
          signerPk allSigners).2).take 2
          = [⟨ComputeBudgetProgramId, .setComputeUnitLimit computeUnits⟩,
             ⟨ComputeBudgetProgramId, .setComputeUnitPrice feeAmount⟩]
      ∧ ∀ ix ∈ (instructionsOf (prepareAndSign true (.legacy t) feeAmount computeUnits
          blockhash signerPk allSigners).2).drop 2, ix.programId ≠ ComputeBudgetProgramId)
    ∧ ((prepareAndSign enabled (.versioned v) feeAmount computeUnits blockhash signerPk
          allSigners).2
        = (prepareAndSign enabled (.versioned v) feeAmount computeUnits blockhash signerPk
            allSigners).1
      ∧ instructionsOf (prepareAndSign enabled (.versioned v) feeAmount computeUnits
          blockhash signerPk allSigners).1 = v.messageInstructions)
    ∧ ((prepareAndSign false (.legacy t) feeAmount computeUnits blockhash signerPk
          allSigners).2
        = (prepareAndSign false (.legacy t) feeAmount computeUnits blockhash signerPk
            allSigners).1
      ∧ instructionsOf (prepareAndSign false (.legacy t) feeAmount computeUnits blockhash
          signerPk allSigners).1 = t.instructions) := by
  refine ⟨⟨rfl, rfl, rfl, ?_⟩, ⟨?_, ?_⟩, ⟨rfl, rfl⟩⟩
  · intro ix hix
    have h : ix ∈ t.instructions.filter (fun ix => ix.programId != ComputeBudgetProgramId) := by
      simpa [prepareAndSign, prepareTransaction, signLegacy, instructionsOf,
        createComputeBudgetInstructions] using hix
    have := List.of_mem_filter h
    simpa using this
  · cases enabled <;> rfl
  · cases enabled <;> rfl

/-- C2 witness: a legacy transaction carrying one stale compute-budget
instruction and one transfer-like instruction, prepared with fee 5 and
CU limit 200000: the original is untouched and the working copy is the
fresh budget pair followed by the transfer instruction only. -/
theorem C2_witness :
    (prepareAndSign true
        (.legacy ⟨[⟨ComputeBudgetProgramId, .raw 3⟩, ⟨9, .raw 0⟩], none, none, []⟩)
        5 200000 "newhash" 7 [7]).1
      = .legacy ⟨[⟨ComputeBudgetProgramId, .raw 3⟩, ⟨9, .raw 0⟩], none, none, []⟩
    ∧ instructionsOf (prepareAndSign true
        (.legacy ⟨[⟨ComputeBudgetProgramId, .raw 3⟩, ⟨9, .raw 0⟩], none, none, []⟩)
        5 200000 "newhash" 7 [7]).2
      = [⟨ComputeBudgetProgramId, .setComputeUnitLimit 200000⟩,
         ⟨ComputeBudgetProgramId, .setComputeUnitPrice 5⟩, ⟨9, .raw 0⟩] := by
  refine ⟨(C2_prepare_no_instruction_mutation
      ⟨[⟨ComputeBudgetProgramId, .raw 3⟩, ⟨9, .raw 0⟩], none, none, []⟩
      ⟨[], "", []⟩ true 5 200000 "newhash" 7 [7]).1.1, ?_⟩
  have h := (C2_prepare_no_instruction_mutation
      ⟨[⟨ComputeBudgetProgramId, .raw 3⟩, ⟨9, .raw 0⟩], none, none, []⟩
      ⟨[], "", []⟩ true 5 200000 "newhash" 7 [7]).1.2.1
  rw [h]
  decide

/-- C3 counterexample: with simulation disabled in the sender config and
the per-send option explicitly passing `skipSimulation = false`, the gate
computes `skip = false ?? ... = false` and `simulateTransaction` IS
invoked (with an `undefined` config) — the simulation step is not
skipped. -/
theorem C3_counterexample :
    runSimulation .disabled (some false) = (true, none) := rfl

/-- C3 (amended): the explicit per-send option wins over the config —
simulation is skipped exactly when `skipSimulation` is `true`, or when it
is unset and the config disables simulation.  In particular
`skipSimulation = false` forces a simulation even when the config
disables it. -/
theorem C3_simulation_gate (sim : SimulationSetting) (skipSimulation : Option Bool) :
    (runSimulation sim skipSimulation).1 = false ↔
      (skipSimulation = some true ∨ (skipSimulation = none ∧ sim = .disabled)) := by
  cases skipSimulation with
  | none => cases sim <;> simp [runSimulation, simulationIsFalse]
  | some b => cases b <;> cases sim <;> simp [runSimulation, simulationIsFalse]

/-- C9 witness: a fresh tracker's first sample 5 sets the EMA to 5; a
tracker with EMA 10 folds a sample of 20 into `0.3·20 + 0.7·10 = 13`. -/
theorem C9_witness :
    (recordSuccessHT DEFAULT_CIRCUIT_BREAKER_CONFIG HealthMetrics.init CircuitBreaker.init
        5 none 100).1.latencyEma = 5
    ∧ (recordSuccessHT DEFAULT_CIRCUIT_BREAKER_CONFIG
        ⟨10, 0, 1, 0, 0, 0, 100, .CLOSED⟩ CircuitBreaker.init 20 none 200).1.latencyEma = 13 := by
  constructor
  · exact (C9_latency_ema_update DEFAULT_CIRCUIT_BREAKER_CONFIG HealthMetrics.init
      CircuitBreaker.init 5 none 100).1 rfl
  · have h := (C9_latency_ema_update DEFAULT_CIRCUIT_BREAKER_CONFIG
      ⟨10, 0, 1, 0, 0, 0, 100, .CLOSED⟩ CircuitBreaker.init 20 none 200).2 (by norm_num)
    rw [h]
    norm_num
